import Mathlib

/-!
Shallow embedding of the gbemu core (src/emulator.rs, src/mmu.rs, src/gpu.rs).

Machine integers are modelled as `Nat` with explicit reductions where the Rust
types force them: `as u8` casts and u8 wrapping arithmetic become `% 256`,
u16 arithmetic becomes `% 65536` (release-build wrap-around semantics).
Byte stores (`Vec<u8>` fields) are modelled as total functions `Nat → Nat`
updated pointwise; fallible operations return `Except RtError _`, where a Rust
`panic!` / `unreachable!` / failed `unwrap` is the `RtError.rtPanic` case and a
propagated `VmExit` is the `RtError.vmExit` case.
-/

namespace GB

set_option maxRecDepth 8000

/-- Reasons why the VM exited (emulator.rs `VmExit`). -/
inductive VmExit
  | Exit
  | Stop
  | Halt
  | OobRead
deriving DecidableEq, Repr

/-- Runtime outcome of a fallible operation: either a Rust abort
(`panic!` / `unreachable!` / `unwrap` of an `Err`) or a typed `VmExit`
propagated with `?`. -/
inductive RtError
  | rtPanic
  | vmExit (e : VmExit)
deriving DecidableEq, Repr

/-- Pointwise store update: Rust `v[i] = x` on a byte store modelled as a
function. -/
def upd (f : Nat → Nat) (i v : Nat) : Nat → Nat :=
  fun j => if j = i then v else f j

/-- PPU mode (gpu.rs `GpuMode`). -/
inductive GpuMode
  | HBlank
  | VBlank
  | OAMAccess
  | VRAMAccess
deriving DecidableEq, Repr

/-- The numeric value of a mode (the discriminants in gpu.rs). -/
def GpuMode.num : GpuMode → Nat
  | .HBlank => 0
  | .VBlank => 1
  | .OAMAccess => 2
  | .VRAMAccess => 3

/-- PPU state (gpu.rs `Gpu`).  The `channel`/`pair` hand-off fields are left
out: we model the consumer-less configuration in which both stay `None`
(`sync` never called), so `render_frame` sends nothing and the VBlank
condition-variable wait is skipped. -/
structure Gpu where
  frame : Nat → Nat
  mode : GpuMode
  modeclock : Nat
  line : Nat
  graphics_ram : Nat → Nat
  scroll_x : Nat
  scroll_y : Nat

/-- `Gpu::new`. -/
def Gpu.new : Gpu where
  frame := fun _ => 0
  mode := GpuMode.HBlank
  modeclock := 0
  line := 0
  graphics_ram := fun _ => 0
  scroll_x := 0
  scroll_y := 0

/-- `Gpu::read_byte` (no state mutation despite `&mut self`). -/
def Gpu.read_byte (g : Gpu) (address : Nat) : Except RtError Nat :=
  if 0x8000 ≤ address ∧ address ≤ 0x9FFF then
    Except.ok (g.graphics_ram (address - 0x8000))
  else if 0xFE00 ≤ address ∧ address ≤ 0xFE9F then
    Except.error RtError.rtPanic
  else if address = 0xFF40 then
    Except.ok 0
  else if address = 0xFF41 then
    Except.ok (g.mode.num &&& 0b11)
  else if address = 0xFF42 then
    Except.ok g.scroll_y
  else if address = 0xFF44 then
    Except.ok g.line
  else
    Except.error RtError.rtPanic

/-- `Gpu::write_byte`. -/
def Gpu.write_byte (g : Gpu) (address val : Nat) : Except RtError Gpu :=
  if 0x8000 ≤ address ∧ address ≤ 0x9FFF then
    Except.ok { g with graphics_ram := upd g.graphics_ram (address - 0x8000) val }
  else if address = 0xFF40 then
    Except.ok g
  else if address = 0xFF42 then
    Except.ok { g with scroll_y := val }
  else if address = 0xFF47 then
    Except.ok g
  else
    Except.error RtError.rtPanic

/-- One iteration of the pixel loop in `Gpu::render_line`. -/
def Gpu.render_pixel (g : Gpu) (line pixel : Nat) : Gpu :=
  let positionY := (line + g.scroll_y) % 256
  let tileRow := (positionY / 8) * 32
  let positionX := (pixel + g.scroll_x) % 256
  let tileCol := positionX / 8
  let tileAddress := 0x1800 + tileRow + tileCol
  let tileId := g.graphics_ram tileAddress
  let tileLocation := tileId * 16
  let lineInTile := (positionY % 8) * 2
  let data := g.graphics_ram (tileLocation + lineInTile)
  let colorBit := 7 - (positionX % 8)
  let v := (data >>> colorBit) &&& 0b1
  let v := v * 255
  let offset := (line * 160 + pixel) * 4
  let fr := upd g.frame offset v
  let fr := upd fr (offset + 1) v
  let fr := upd fr (offset + 2) v
  let fr := upd fr (offset + 3) 0xFF
  { g with frame := fr }

/-- `Gpu::render_line`: paints the 160 pixels of one scanline. -/
def Gpu.render_line (g : Gpu) (line : Nat) : Gpu :=
  (List.range 160).foldl (fun g pixel => g.render_pixel line pixel) g

/-- `Gpu::render_frame`: with no channel/pair attached (the modelled
configuration) it publishes nothing and leaves the PPU unchanged. -/
def Gpu.render_frame (g : Gpu) : Gpu := g

/-- `Gpu::step`: advance the mode state machine by `cycleNb` clock ticks. -/
def Gpu.step (g : Gpu) (cycleNb : Nat) : Gpu :=
  let g := { g with modeclock := g.modeclock + cycleNb }
  match g.mode with
  | GpuMode.OAMAccess =>
    if 80 ≤ g.modeclock then
      { g with modeclock := 0, mode := GpuMode.VRAMAccess }
    else g
  | GpuMode.VRAMAccess =>
    if 172 ≤ g.modeclock then
      let g := { g with modeclock := 0, mode := GpuMode.HBlank }
      g.render_line g.line
    else g
  | GpuMode.HBlank =>
    if 204 ≤ g.modeclock then
      let g := { g with modeclock := 0, line := (g.line + 1) % 256 }
      if g.line = 143 then
        ({ g with mode := GpuMode.VBlank }).render_frame
      else
        { g with mode := GpuMode.OAMAccess }
    else g
  | GpuMode.VBlank =>
    if 456 ≤ g.modeclock then
      let g := { g with modeclock := 0, line := (g.line + 1) % 256 }
      if 153 < g.line then
        { g with mode := GpuMode.OAMAccess, line := 0 }
      else g
    else g

/-- Memory decoder state (mmu.rs `Mmu`).  `bootrom` content comes from a file
in the source (`roms/bootrom.gb`), so it is a construction parameter here. -/
structure Mmu where
  rom : Nat → Nat
  bootrom : Nat → Nat
  bootrom_lock : Bool
  ram : Nat → Nat
  mbc0_ram : Nat → Nat
  zero_page_ram : Nat → Nat
  gpu : Gpu
  interrupt_flags : Nat

/-- `Mmu::new` with the given boot image bytes; all other stores zeroed. -/
def Mmu.new (bootrom : Nat → Nat) : Mmu where
  rom := fun _ => 0
  bootrom := bootrom
  bootrom_lock := true
  ram := fun _ => 0
  mbc0_ram := fun _ => 0
  zero_page_ram := fun _ => 0
  gpu := Gpu.new
  interrupt_flags := 0

/-- `Mmu::handle_io_read`. -/
def Mmu.handle_io_read (m : Mmu) (address : Nat) : Except RtError Nat :=
  if address = 0xFF00 then
    Except.ok 0
  else if 0xFF40 ≤ address ∧ address ≤ 0xFF4F then
    m.gpu.read_byte address
  else if address = 0xFF50 then
    Except.ok (if m.bootrom_lock then 0 else 1)
  else if 0xFF68 ≤ address ∧ address ≤ 0xFF6B then
    m.gpu.read_byte address
  else
    Except.error RtError.rtPanic

/-- `Mmu::read_byte`: route an address to its backing store.  The match arms
of the source appear here as an if-chain in the same order; the uncovered
`0xFEA0..=0xFEFF` gap (and anything past `0xFFFF`) falls through to the
`panic!` arm. -/
def Mmu.read_byte (m : Mmu) (address : Nat) : Except RtError Nat :=
  if address ≤ 0x7FFF then
    if m.bootrom_lock = true ∧ address ≤ 0xFF then
      Except.ok (m.bootrom address)
    else
      Except.ok (m.rom address)
  else if address ≤ 0x9FFF then
    m.gpu.read_byte address
  else if address ≤ 0xBFFF then
    Except.ok (m.mbc0_ram (address - 0xA000))
  else if address ≤ 0xDFFF then
    Except.ok (m.ram (address - 0xC000))
  else if address ≤ 0xFDFF then
    Except.ok (m.ram (address - 0xE000))
  else if address ≤ 0xFE9F then
    m.gpu.read_byte address
  else if 0xFF00 ≤ address ∧ address ≤ 0xFF7F then
    m.handle_io_read address
  else if 0xFF80 ≤ address ∧ address ≤ 0xFFFF then
    Except.ok (m.zero_page_ram (address - 0xFF80))
  else
    Except.error RtError.rtPanic

/-- `Mmu::read_word`: little-endian byte pair. -/
def Mmu.read_word (m : Mmu) (address : Nat) : Except RtError Nat := do
  let lo ← m.read_byte address
  let hi ← m.read_byte ((address + 1) % 65536)
  pure (lo ||| (hi <<< 8))

/-- `Mmu::handle_io_write`.  The seventeen sound/serial/joypad stub registers
that just return `Ok(())` are folded into one disjunction; all remaining arms
mirror the source.  The boot-lock arm keeps the source's short-circuit order:
`read_byte` is consulted only when bit 0 of the written value is set. -/
def Mmu.handle_io_write (m : Mmu) (address val : Nat) : Except RtError Mmu :=
  if address = 0xFF00 ∨ address = 0xFF01 ∨ address = 0xFF02 ∨
     address = 0xFF06 ∨ address = 0xFF10 ∨ address = 0xFF11 ∨
     address = 0xFF12 ∨ address = 0xFF13 ∨ address = 0xFF14 ∨
     address = 0xFF17 ∨ address = 0xFF19 ∨ address = 0xFF1A ∨
     address = 0xFF21 ∨ address = 0xFF23 ∨ address = 0xFF24 ∨
     address = 0xFF25 ∨ address = 0xFF26 then
    Except.ok m
  else if 0xFF40 ≤ address ∧ address ≤ 0xFF4F then do
    let g ← m.gpu.write_byte address val
    pure { m with gpu := g }
  else if address = 0xFF50 then
    if val &&& 0x01 = 0x01 then do
      let cur ← m.read_byte address
      if cur &&& 0x01 = 0 then
        Except.ok { m with bootrom_lock := false }
      else
        Except.ok m
    else
      Except.ok m
  else if address = 0xFF0F then
    if val = 0 ∨ val = 1 then
      Except.ok { m with interrupt_flags := val }
    else
      Except.error RtError.rtPanic
  else if address = 0xFF7F then
    Except.ok m
  else
    Except.error RtError.rtPanic

/-- `Mmu::write_byte`.  Writes into `0x0000..=0x3FFF` are accepted and
dropped; the uncovered ranges (`0x4000..=0x7FFF`, `0xA000..=0xBFFF`,
`0xE000..=0xFDFF`) fall through to the `panic!` arm, as in the source match. -/
def Mmu.write_byte (m : Mmu) (address val : Nat) : Except RtError Mmu :=
  if address ≤ 0x3FFF then
    Except.ok m
  else if 0x8000 ≤ address ∧ address ≤ 0x9FFF then do
    let g ← m.gpu.write_byte address val
    pure { m with gpu := g }
  else if 0xC000 ≤ address ∧ address ≤ 0xDFFF then
    Except.ok { m with ram := upd m.ram (address - 0xC000) val }
  else if 0xFE00 ≤ address ∧ address ≤ 0xFE9F then
    Except.ok m
  else if 0xFEA0 ≤ address ∧ address ≤ 0xFEFF then
    Except.ok m
  else if 0xFF00 ≤ address ∧ address ≤ 0xFF7F then
    m.handle_io_write address val
  else if 0xFF80 ≤ address ∧ address ≤ 0xFFFF then
    Except.ok { m with zero_page_ram := upd m.zero_page_ram (address - 0xFF80) val }
  else
    Except.error RtError.rtPanic

/-- `Mmu::write_word`: store low byte then high byte (`as u8` casts). -/
def Mmu.write_word (m : Mmu) (address val : Nat) : Except RtError Mmu := do
  let m ← m.write_byte address (val &&& 0xFF)
  let m ← m.write_byte ((address + 1) % 65536) ((val >>> 8) % 256)
  pure m

/-- Read through `Mmu::get_mut_ref_byte`: the accessor indexes the `rom`
store directly, bypassing the address decoder. -/
def Mmu.rom_read (m : Mmu) (address : Nat) : Nat :=
  m.rom address

/-- Write through the mutable reference handed out by
`Mmu::get_mut_ref_byte`: mutates the `rom` store directly. -/
def Mmu.rom_write (m : Mmu) (address val : Nat) : Mmu :=
  { m with rom := upd m.rom address val }

/-- Bit mask of `CpuFlag::C` (carry). -/
def flagC : Nat := 0b00010000

/-- Bit mask of `CpuFlag::H` (half-carry). -/
def flagH : Nat := 0b00100000

/-- Bit mask of `CpuFlag::N` (subtract/negative). -/
def flagN : Nat := 0b01000000

/-- Bit mask of `CpuFlag::Z` (zero). -/
def flagZ : Nat := 0b10000000

/-- SM83 register file (emulator.rs `Registers`). -/
structure Registers where
  a : Nat
  b : Nat
  c : Nat
  d : Nat
  e : Nat
  f : Nat
  h : Nat
  l : Nat
  sp : Nat
  pc : Nat

/-- `Registers::af`. -/
def Registers.af (r : Registers) : Nat := (r.a <<< 8) ||| r.f

/-- `Registers::bc`. -/
def Registers.bc (r : Registers) : Nat := (r.b <<< 8) ||| r.c

/-- `Registers::de`. -/
def Registers.de (r : Registers) : Nat := (r.d <<< 8) ||| r.e

/-- `Registers::hl`. -/
def Registers.hl (r : Registers) : Nat := (r.h <<< 8) ||| r.l

/-- `Registers::set_af`: high byte to A (`as u8` cast), `val & 0b11111111`
to F — all eight bits of the written value reach F. -/
def Registers.set_af (r : Registers) (val : Nat) : Registers :=
  { r with a := (val >>> 8) % 256, f := val &&& 0b11111111 }

/-- `Registers::set_bc`. -/
def Registers.set_bc (r : Registers) (val : Nat) : Registers :=
  { r with b := (val >>> 8) % 256, c := val &&& 0b11111111 }

/-- `Registers::set_de`. -/
def Registers.set_de (r : Registers) (val : Nat) : Registers :=
  { r with d := (val >>> 8) % 256, e := val &&& 0b11111111 }

/-- `Registers::set_hl`. -/
def Registers.set_hl (r : Registers) (val : Nat) : Registers :=
  { r with h := (val >>> 8) % 256, l := val &&& 0b11111111 }

/-- `Registers::set_flag`; `!(flag as u8)` is the u8 complement
`0xFF ^^^ flag`. -/
def Registers.set_flag (r : Registers) (flag : Nat) (val : Bool) : Registers :=
  { r with f := if val then r.f ||| flag else r.f &&& (0xFF ^^^ flag) }

/-- `Registers::flag`: true iff the masked bit is non-zero. -/
def Registers.flag (r : Registers) (flag : Nat) : Bool :=
  if r.f &&& flag = 0 then false else true

/-- `Registers::clear_flags`: `f &= 0b00001111` keeps the low nibble and
clears the four flag bits. -/
def Registers.clear_flags (r : Registers) : Registers :=
  { r with f := r.f &&& 0b00001111 }

/-- CPU + memory (emulator.rs `Emulator`). -/
structure Emulator where
  memory : Mmu
  regs : Registers

/-- `Emulator::new` with the given boot image: zeroed register file. -/
def Emulator.new (bootrom : Nat → Nat) : Emulator where
  memory := Mmu.new bootrom
  regs := { a := 0, b := 0, c := 0, d := 0, e := 0, f := 0, h := 0, l := 0,
            sp := 0, pc := 0 }

/-- `Emulator::alu_inc8`: wrapping increment; N cleared, Z set from the
result, H set — but never cleared — when `res & 0b11111 == 0b10000`. -/
def Emulator.alu_inc8 (em : Emulator) (val : Nat) : Emulator × Nat :=
  let res := (val + 1) % 256
  let regs := em.regs.set_flag flagN false
  let regs := if res = 0 then regs.set_flag flagZ true else regs.set_flag flagZ false
  let regs := if res &&& 0b11111 = 0b10000 then regs.set_flag flagH true else regs
  ({ em with regs := regs }, res)

/-- `Emulator::alu_dec8`: wrapping decrement (`+ 255` mod 256); N set, Z from
the result, H set — but never cleared — when `res & 0b11111 == 0b01111`. -/
def Emulator.alu_dec8 (em : Emulator) (val : Nat) : Emulator × Nat :=
  let res := (val + 255) % 256
  let regs := em.regs.set_flag flagN true
  let regs := if res = 0 then regs.set_flag flagZ true else regs.set_flag flagZ false
  let regs := if res &&& 0b11111 = 0b01111 then regs.set_flag flagH true else regs
  ({ em with regs := regs }, res)

/-- `Emulator::alu_add_hl`. -/
def Emulator.alu_add_hl (em : Emulator) (val : Nat) : Emulator :=
  let regs := em.regs.set_flag flagN false
  let regs := if 2 ^ 16 ≤ val + regs.hl then regs.set_flag flagC true
              else regs.set_flag flagC false
  let regs := if 2 ^ 12 ≤ val + regs.hl then regs.set_flag flagH true
              else regs.set_flag flagH false
  { em with regs := regs.set_hl ((val + regs.hl) % 65536) }

/-- `Emulator::alu_set_zero_flag`. -/
def Emulator.alu_set_zero_flag (em : Emulator) : Emulator :=
  if em.regs.a = 0 then { em with regs := em.regs.set_flag flagZ true }
  else { em with regs := em.regs.set_flag flagZ false }

/-- `Emulator::alu_add`. -/
def Emulator.alu_add (em : Emulator) (val : Nat) : Emulator :=
  let regs := em.regs.set_flag flagN false
  let regs := if 2 ^ 8 ≤ val + regs.a then regs.set_flag flagC true
              else regs.set_flag flagC false
  let regs := if 2 ^ 4 ≤ val + regs.a then regs.set_flag flagH true
              else regs.set_flag flagH false
  let regs := { regs with a := (val + regs.a) % 256 }
  Emulator.alu_set_zero_flag { em with regs := regs }

/-- `Emulator::alu_adc`: pre-adds the carry to the operand (u8 wrap). -/
def Emulator.alu_adc (em : Emulator) (val : Nat) : Emulator :=
  let val := if em.regs.flag flagC then (val + 1) % 256 else val
  em.alu_add val

/-- `Emulator::alu_sub`; `a.wrapping_sub(val)` is `(a + 256 - val) % 256`
for byte operands. -/
def Emulator.alu_sub (em : Emulator) (val : Nat) : Emulator :=
  let regs := em.regs.set_flag flagN true
  let regs := if regs.a < val then regs.set_flag flagC true
              else regs.set_flag flagC false
  let regs := if 2 ^ 4 ≤ val + regs.a then regs.set_flag flagH true
              else regs.set_flag flagH false
  let regs := { regs with a := (regs.a + 256 - val % 256) % 256 }
  Emulator.alu_set_zero_flag { em with regs := regs }

/-- `Emulator::alu_sbc`: pre-adds the carry to the operand (u8 wrap). -/
def Emulator.alu_sbc (em : Emulator) (val : Nat) : Emulator :=
  let val := if em.regs.flag flagC then (val + 1) % 256 else val
  em.alu_sub val

/-- `Emulator::alu_and`: N cleared, H set, C cleared, A masked, Z from A. -/
def Emulator.alu_and (em : Emulator) (val : Nat) : Emulator :=
  let regs := em.regs.set_flag flagN false
  let regs := regs.set_flag flagH true
  let regs := regs.set_flag flagC false
  let regs := { regs with a := regs.a &&& val }
  Emulator.alu_set_zero_flag { em with regs := regs }

/-- `Emulator::alu_xor`: N cleared, H **set** (as in the source), C cleared,
A xored, Z from A. -/
def Emulator.alu_xor (em : Emulator) (val : Nat) : Emulator :=
  let regs := em.regs.set_flag flagN false
  let regs := regs.set_flag flagH true
  let regs := regs.set_flag flagC false
  let regs := { regs with a := regs.a ^^^ val }
  Emulator.alu_set_zero_flag { em with regs := regs }

/-- `Emulator::alu_or`: N cleared, H cleared, C cleared, A ored, Z from A. -/
def Emulator.alu_or (em : Emulator) (val : Nat) : Emulator :=
  let regs := em.regs.set_flag flagN false
  let regs := regs.set_flag flagH false
  let regs := regs.set_flag flagC false
  let regs := { regs with a := regs.a ||| val }
  Emulator.alu_set_zero_flag { em with regs := regs }

/-- `Emulator::alu_cp`: the SUB flag computation with the result dropped. -/
def Emulator.alu_cp (em : Emulator) (val : Nat) : Emulator :=
  let regs := em.regs.set_flag flagN true
  let regs := if regs.a < val then regs.set_flag flagC true
              else regs.set_flag flagC false
  let regs := if 2 ^ 4 ≤ val + regs.a then regs.set_flag flagH true
              else regs.set_flag flagH false
  let res := (regs.a + 256 - val % 256) % 256
  let regs := if res = 0 then regs.set_flag flagZ true else regs.set_flag flagZ false
  { em with regs := regs }

/-- The operand accessor built in the `0xCB` prefix arm (`get_src_reg`),
read side: indices 0–5 and 7 are registers; index 6 goes through
`get_mut_ref_byte`, i.e. reads `rom[hl]` directly.  The selector is
`subinstr & 0x7`, so the `unreachable!` default arm is dead and index 7
(register A) absorbs it. -/
def Emulator.get_src_reg (em : Emulator) (sel : Nat) : Nat :=
  match sel with
  | 0 => em.regs.b
  | 1 => em.regs.c
  | 2 => em.regs.d
  | 3 => em.regs.e
  | 4 => em.regs.h
  | 5 => em.regs.l
  | 6 => em.memory.rom_read em.regs.hl
  | _ => em.regs.a

/-- Write side of the `get_src_reg` operand accessor: index 6 stores through
the `rom` mutable reference. -/
def Emulator.set_src_reg (em : Emulator) (sel v : Nat) : Emulator :=
  match sel with
  | 0 => { em with regs := { em.regs with b := v } }
  | 1 => { em with regs := { em.regs with c := v } }
  | 2 => { em with regs := { em.regs with d := v } }
  | 3 => { em with regs := { em.regs with e := v } }
  | 4 => { em with regs := { em.regs with h := v } }
  | 5 => { em with regs := { em.regs with l := v } }
  | 6 => { em with memory := em.memory.rom_write em.regs.hl v }
  | _ => { em with regs := { em.regs with a := v } }

/-- `Emulator::alu_rl` on the operand selected by `sel`: rotate left through
carry (u8 shift wraps), then clear all flags and set C and Z. -/
def Emulator.alu_rl (em : Emulator) (sel : Nat) : Emulator :=
  let oldCarry := if em.regs.flag flagC then 1 else 0
  let v := em.get_src_reg sel
  let carry := v &&& 0x80 = 0x80
  let v' := ((v <<< 1) % 256) ||| oldCarry
  let em := em.set_src_reg sel v'
  let zeroFlag := v' = 0
  let em := { em with regs := em.regs.clear_flags }
  let em := { em with regs := em.regs.set_flag flagC carry }
  { em with regs := em.regs.set_flag flagZ zeroFlag }

/-- `Emulator::alu_swap` on the operand selected by `sel`. -/
def Emulator.alu_swap (em : Emulator) (sel : Nat) : Emulator :=
  let v := em.get_src_reg sel
  let lower := v &&& 0x0F
  let v' := (v >>> 4) ||| (lower <<< 4)
  let em := em.set_src_reg sel v'
  let zeroFlag := v' = 0
  let em := { em with regs := em.regs.clear_flags }
  { em with regs := em.regs.set_flag flagZ zeroFlag }

/-- `Emulator::alu_srl` on the operand selected by `sel`. -/
def Emulator.alu_srl (em : Emulator) (sel : Nat) : Emulator :=
  let v := em.get_src_reg sel
  let carry := v &&& 0x01 = 0x01
  let v' := v >>> 1
  let em := em.set_src_reg sel v'
  let zeroFlag := v' = 0
  let em := { em with regs := em.regs.clear_flags }
  let em := { em with regs := em.regs.set_flag flagC carry }
  { em with regs := em.regs.set_flag flagZ zeroFlag }

/-- `Emulator::bit`: set Z iff bit `n` of `val` is clear (`n < 8` asserted
at every call site with a constant). -/
def Emulator.bit (em : Emulator) (val n : Nat) : Emulator :=
  let testedBit := 1 <<< n
  if val &&& testedBit = 0 then { em with regs := em.regs.set_flag flagZ true }
  else { em with regs := em.regs.set_flag flagZ false }

/-- `Emulator::pop16`: load the word at SP, then SP += 2 (u16 wrap). -/
def Emulator.pop16 (em : Emulator) : Except RtError (Nat × Emulator) := do
  let res ← em.memory.read_word em.regs.sp
  pure (res, { em with regs := { em.regs with sp := (em.regs.sp + 2) % 65536 } })

/-- `Emulator::push16`: SP -= 2 (u16 wrap), then store the word; the
source's `.unwrap()` turns a write failure into an abort, which the error
propagation models. -/
def Emulator.push16 (em : Emulator) (val : Nat) : Except RtError Emulator := do
  let regs := { em.regs with sp := (em.regs.sp + 65534) % 65536 }
  let m ← em.memory.write_word regs.sp val
  pure { memory := m, regs := regs }

/-- Rust `tmp as i8 as u16`: sign-extend a byte to 16 bits. -/
def sign_ext8 (tmp : Nat) : Nat :=
  if tmp < 128 then tmp else 0xFF00 + tmp

/-- The `0xC0..=0xFF` tail of the decode/execute match of `Emulator::run`
(split out of `exec_instr` for readability), in source order; opcodes the
source match omits (`0xD3`, `0xDB`, `0xDD`, `0xE3`, `0xE4`, `0xEB`–`0xED`,
`0xF4`, `0xFC`, `0xFD`) fall through to the `unreachable!` arm. -/
def Emulator.exec_instr_hi (em : Emulator) (instr : Nat) :
    Except RtError (Emulator × Nat × Nat) :=
  if instr = 0xC0 then
    -- RET NZ
    if em.regs.flag flagZ then pure (em, 1, 2)
    else do
      let (v, em) ← em.pop16
      pure ({ em with regs := { em.regs with pc := v } }, 0, 5)
  else if instr = 0xC1 then do
    -- POP BC
    let (v, em) ← em.pop16
    pure ({ em with regs := em.regs.set_bc v }, 1, 3)
  else if instr = 0xC2 then
    -- JP NZ, a16
    if em.regs.flag flagZ then pure (em, 3, 3)
    else do
      let w ← em.memory.read_word ((em.regs.pc + 1) % 65536)
      pure ({ em with regs := { em.regs with pc := w } }, 3, 4)
  else if instr = 0xC3 then do
    -- JP a16
    let w ← em.memory.read_word ((em.regs.pc + 1) % 65536)
    pure ({ em with regs := { em.regs with pc := w } }, 3, 4)
  else if instr = 0xC4 then
    -- CALL NZ, a16
    if em.regs.flag flagZ then pure (em, 3, 3)
    else do
      let em ← em.push16 ((em.regs.pc + 2) % 65536)
      let w ← em.memory.read_word ((em.regs.pc + 1) % 65536)
      pure ({ em with regs := { em.regs with pc := w } }, 0, 6)
  else if instr = 0xC5 then do
    -- PUSH BC
    let em ← em.push16 em.regs.bc
    pure (em, 1, 4)
  else if instr = 0xC6 then do
    -- ADD A, d8
    let src ← em.memory.read_byte ((em.regs.pc + 1) % 65536)
    pure (em.alu_add src, 2, 2)
  else if instr = 0xC7 then
    -- RST 00h
    pure ({ em with regs := { em.regs with pc := 0 } }, 1, 4)
  else if instr = 0xC8 then
    -- RET Z
    if !em.regs.flag flagZ then pure (em, 1, 2)
    else do
      let (v, em) ← em.pop16
      pure ({ em with regs := { em.regs with pc := v } }, 0, 5)
  else if instr = 0xC9 then do
    -- RET
    let (v, em) ← em.pop16
    pure ({ em with regs := { em.regs with pc := v } }, 0, 4)
  else if instr = 0xCA then
    -- JP Z, a16
    if !em.regs.flag flagZ then pure (em, 3, 3)
    else do
      let w ← em.memory.read_word ((em.regs.pc + 1) % 65536)
      pure ({ em with regs := { em.regs with pc := w } }, 3, 4)
  else if instr = 0xCB then do
    -- PREFIX CB
    let subinstr ← em.memory.read_byte ((em.regs.pc + 1) % 65536)
    let em ← (match subinstr &&& 0b11111000 with
      | 0x78 => pure (em.bit (em.get_src_reg (subinstr &&& 0x7)) 7)
      | 0x10 => pure (em.alu_rl (subinstr &&& 0x7))
      | 0x30 => pure (em.alu_swap (subinstr &&& 0x7))
      | 0x38 => pure (em.alu_srl (subinstr &&& 0x7))
      | _ => Except.error RtError.rtPanic)
    pure (em, 2, if subinstr &&& 0x7 = 0x6 then 4 else 2)
  else if instr = 0xCC then
    -- CALL Z, a16
    if !em.regs.flag flagZ then pure (em, 3, 3)
    else do
      let em ← em.push16 ((em.regs.pc + 2) % 65536)
      let w ← em.memory.read_word ((em.regs.pc + 1) % 65536)
      pure ({ em with regs := { em.regs with pc := w } }, 0, 6)
  else if instr = 0xCD then do
    -- CALL a16
    let em ← em.push16 ((em.regs.pc + 2) % 65536)
    let w ← em.memory.read_word ((em.regs.pc + 1) % 65536)
    pure ({ em with regs := { em.regs with pc := w } }, 0, 6)
  else if instr = 0xCE then do
    -- ADC A, d8
    let src ← em.memory.read_byte ((em.regs.pc + 1) % 65536)
    pure (em.alu_adc src, 2, 2)
  else if instr = 0xCF then
    -- RST 08h
    pure ({ em with regs := { em.regs with pc := 0x08 } }, 1, 4)
  else if instr = 0xD0 then
    -- RET NC
    if em.regs.flag flagC then pure (em, 1, 2)
    else do
      let (v, em) ← em.pop16
      pure ({ em with regs := { em.regs with pc := v } }, 0, 5)
  else if instr = 0xD1 then do
    -- POP DE
    let (v, em) ← em.pop16
    pure ({ em with regs := em.regs.set_de v }, 1, 3)
  else if instr = 0xD2 then
    -- JP NC, a16
    if em.regs.flag flagC then pure (em, 3, 3)
    else do
      let w ← em.memory.read_word ((em.regs.pc + 1) % 65536)
      pure ({ em with regs := { em.regs with pc := w } }, 3, 4)
  else if instr = 0xD4 then
    -- CALL NC, a16
    if em.regs.flag flagC then pure (em, 3, 3)
    else do
      let em ← em.push16 ((em.regs.pc + 2) % 65536)
      let w ← em.memory.read_word ((em.regs.pc + 1) % 65536)
      pure ({ em with regs := { em.regs with pc := w } }, 0, 6)
  else if instr = 0xD5 then do
    -- PUSH DE
    let em ← em.push16 em.regs.de
    pure (em, 1, 4)
  else if instr = 0xD6 then do
    -- SUB d8
    let src ← em.memory.read_byte ((em.regs.pc + 1) % 65536)
    pure (em.alu_sub src, 2, 2)
  else if instr = 0xD7 then
    -- RST 10h
    pure ({ em with regs := { em.regs with pc := 0x10 } }, 1, 4)
  else if instr = 0xD8 then
    -- RET C
    if !em.regs.flag flagC then pure (em, 1, 2)
    else do
      let (v, em) ← em.pop16
      pure ({ em with regs := { em.regs with pc := v } }, 0, 5)
  else if instr = 0xD9 then do
    -- RETI (interrupt re-enable is a TODO in the source)
    let (v, em) ← em.pop16
    pure ({ em with regs := { em.regs with pc := v } }, 0, 4)
  else if instr = 0xDA then
    -- JP C, a16
    if !em.regs.flag flagC then pure (em, 3, 3)
    else do
      let w ← em.memory.read_word ((em.regs.pc + 1) % 65536)
      pure ({ em with regs := { em.regs with pc := w } }, 3, 4)
  else if instr = 0xDC then
    -- CALL C, a16
    if !em.regs.flag flagC then pure (em, 3, 3)
    else do
      let em ← em.push16 ((em.regs.pc + 2) % 65536)
      let w ← em.memory.read_word ((em.regs.pc + 1) % 65536)
      pure ({ em with regs := { em.regs with pc := w } }, 0, 6)
  else if instr = 0xDE then do
    -- SBC A, d8
    let src ← em.memory.read_byte ((em.regs.pc + 1) % 65536)
    pure (em.alu_sbc src, 2, 2)
  else if instr = 0xDF then
    -- RST 18h
    pure ({ em with regs := { em.regs with pc := 0x18 } }, 1, 4)
  else if instr = 0xE0 then do
    -- LDH (a8), A
    let v ← em.memory.read_byte ((em.regs.pc + 1) % 65536)
    let m ← em.memory.write_byte (v ||| 0xFF00) em.regs.a
    pure ({ em with memory := m }, 2, 3)
  else if instr = 0xE1 then do
    -- POP HL
    let (v, em) ← em.pop16
    pure ({ em with regs := em.regs.set_hl v }, 1, 3)
  else if instr = 0xE2 then do
    -- LD (C), A
    let m ← em.memory.write_byte (em.regs.c ||| 0xFF00) em.regs.a
    pure ({ em with memory := m }, 1, 2)
  else if instr = 0xE5 then do
    -- PUSH HL
    let em ← em.push16 em.regs.hl
    pure (em, 1, 4)
  else if instr = 0xE6 then do
    -- AND d8
    let src ← em.memory.read_byte ((em.regs.pc + 1) % 65536)
    pure (em.alu_and src, 2, 2)
  else if instr = 0xE7 then
    -- RST 20h
    pure ({ em with regs := { em.regs with pc := 0x20 } }, 1, 4)
  else if instr = 0xE8 then do
    -- ADD SP, r8 (flags computed against the 8-bit thresholds, as written)
    let regs := em.regs.set_flag flagN false
    let regs := regs.set_flag flagZ false
    let v ← em.memory.read_byte ((em.regs.pc + 1) % 65536)
    let regs := if 2 ^ 8 ≤ v + regs.sp then regs.set_flag flagC true
                else regs.set_flag flagC false
    let regs := if 2 ^ 4 ≤ v + regs.sp then regs.set_flag flagH true
                else regs.set_flag flagH false
    let regs := { regs with sp := (regs.sp + v) % 65536 }
    pure ({ em with regs := regs }, 2, 4)
  else if instr = 0xE9 then do
    -- JP (HL) — the source jumps to the word stored at HL
    let w ← em.memory.read_word em.regs.hl
    pure ({ em with regs := { em.regs with pc := w } }, 1, 1)
  else if instr = 0xEA then do
    -- LD (a16), A
    let addr ← em.memory.read_word ((em.regs.pc + 1) % 65536)
    let m ← em.memory.write_byte addr em.regs.a
    pure ({ em with memory := m }, 3, 4)
  else if instr = 0xEE then do
    -- XOR d8
    let src ← em.memory.read_byte ((em.regs.pc + 1) % 65536)
    pure (em.alu_xor src, 2, 2)
  else if instr = 0xEF then
    -- RST 28h
    pure ({ em with regs := { em.regs with pc := 0x28 } }, 1, 4)
  else if instr = 0xF0 then do
    -- LDH A, (a8)
    let tmp ← em.memory.read_byte ((em.regs.pc + 1) % 65536)
    let v ← em.memory.read_byte (tmp ||| 0xFF00)
    pure ({ em with regs := { em.regs with a := v } }, 2, 3)
  else if instr = 0xF1 then do
    -- POP AF
    let (v, em) ← em.pop16
    pure ({ em with regs := em.regs.set_af v }, 1, 3)
  else if instr = 0xF2 then do
    -- LD A, (C)
    let v ← em.memory.read_byte (em.regs.c ||| 0xFF00)
    pure ({ em with regs := { em.regs with a := v } }, 1, 2)
  else if instr = 0xF3 then
    -- DI (interrupt disable is a TODO in the source)
    pure (em, 1, 1)
  else if instr = 0xF5 then do
    -- PUSH AF
    let em ← em.push16 em.regs.af
    pure (em, 1, 4)
  else if instr = 0xF6 then do
    -- OR d8
    let src ← em.memory.read_byte ((em.regs.pc + 1) % 65536)
    pure (em.alu_or src, 2, 2)
  else if instr = 0xF7 then
    -- RST 30h
    pure ({ em with regs := { em.regs with pc := 0x30 } }, 1, 4)
  else if instr = 0xF8 then do
    -- LD HL, SP+r8 (flags computed against the 8-bit thresholds, as written)
    let regs := em.regs.set_flag flagN false
    let regs := regs.set_flag flagZ false
    let v ← em.memory.read_byte ((em.regs.pc + 1) % 65536)
    let regs := if 2 ^ 8 ≤ v + regs.sp then regs.set_flag flagC true
                else regs.set_flag flagC false
    let regs := if 2 ^ 4 ≤ v + regs.sp then regs.set_flag flagH true
                else regs.set_flag flagH false
    let regs := regs.set_hl ((regs.sp + v) % 65536)
    pure ({ em with regs := regs }, 2, 3)
  else if instr = 0xF9 then
    -- LD SP, HL
    pure ({ em with regs := { em.regs with sp := em.regs.hl } }, 1, 2)
  else if instr = 0xFA then do
    -- LD A, (a16)
    let addr ← em.memory.read_word ((em.regs.pc + 1) % 65536)
    let v ← em.memory.read_byte addr
    pure ({ em with regs := { em.regs with a := v } }, 3, 4)
  else if instr = 0xFB then
    -- EI (interrupt enable is a TODO in the source)
    pure (em, 1, 1)
  else if instr = 0xFE then do
    -- CP d8
    let src ← em.memory.read_byte ((em.regs.pc + 1) % 65536)
    pure (em.alu_cp src, 2, 2)
  else if instr = 0xFF then
    -- RST 38h
    pure ({ em with regs := { em.regs with pc := 0x38 } }, 1, 4)
  else
    -- unreachable! arm: unknown instruction
    Except.error RtError.rtPanic

/-- The decode/execute match of `Emulator::run` for a fetched opcode:
returns the mutated emulator and the `(bytes_read, machine_cycles)` pair of
the taken arm.  The source's match arms appear as an if-chain in opcode
order; the opcodes missing from the source match fall through to the final
`unreachable!` arm. -/
def Emulator.exec_instr (em : Emulator) (instr : Nat) :
    Except RtError (Emulator × Nat × Nat) :=
  if instr = 0x00 then
    -- NOP
    pure (em, 1, 1)
  else if instr = 0x01 then do
    -- LD BC, d16
    let w ← em.memory.read_word ((em.regs.pc + 1) % 65536)
    pure ({ em with regs := em.regs.set_bc w }, 3, 3)
  else if instr = 0x02 then do
    -- LD (BC), A
    let m ← em.memory.write_byte em.regs.bc em.regs.a
    pure ({ em with memory := m }, 1, 2)
  else if instr = 0x03 then
    -- INC BC
    pure ({ em with regs := em.regs.set_bc ((em.regs.bc + 1) % 65536) }, 1, 2)
  else if instr = 0x04 then
    -- INC B
    let (em', res) := em.alu_inc8 em.regs.b
    pure ({ em' with regs := { em'.regs with b := res } }, 1, 1)
  else if instr = 0x05 then
    -- DEC B
    let (em', res) := em.alu_dec8 em.regs.b
    pure ({ em' with regs := { em'.regs with b := res } }, 1, 1)
  else if instr = 0x06 then do
    -- LD B, d8
    let v ← em.memory.read_byte ((em.regs.pc + 1) % 65536)
    pure ({ em with regs := { em.regs with b := v } }, 2, 2)
  else if instr = 0x07 then
    -- RLCA
    let tmp := em.regs.a
    let carry := tmp &&& 0x80 = 0x80
    let regs := { em.regs with a := ((tmp <<< 1) % 256) ||| (if carry then 1 else 0) }
    let regs := regs.clear_flags
    let regs := regs.set_flag flagC carry
    pure ({ em with regs := regs }, 1, 1)
  else if instr = 0x08 then do
    -- LD (a16), SP — the source loads SP from the immediate word
    let w ← em.memory.read_word ((em.regs.pc + 1) % 65536)
    pure ({ em with regs := { em.regs with sp := w } }, 3, 5)
  else if instr = 0x09 then
    -- ADD HL, BC
    pure (em.alu_add_hl em.regs.bc, 1, 2)
  else if instr = 0x0A then do
    -- LD A, (BC)
    let v ← em.memory.read_byte em.regs.bc
    pure ({ em with regs := { em.regs with a := v } }, 1, 2)
  else if instr = 0x0B then
    -- DEC BC
    pure ({ em with regs := em.regs.set_bc ((em.regs.bc + 65535) % 65536) }, 1, 2)
  else if instr = 0x0C then
    -- INC C
    let (em', res) := em.alu_inc8 em.regs.c
    pure ({ em' with regs := { em'.regs with c := res } }, 1, 1)
  else if instr = 0x0D then
    -- DEC C
    let (em', res) := em.alu_dec8 em.regs.c
    pure ({ em' with regs := { em'.regs with c := res } }, 1, 1)
  else if instr = 0x0E then do
    -- LD C, d8
    let v ← em.memory.read_byte ((em.regs.pc + 1) % 65536)
    pure ({ em with regs := { em.regs with c := v } }, 2, 2)
  else if instr = 0x0F then
    -- RRCA
    let tmp := em.regs.a
    let carry := tmp &&& 0x01 = 0x01
    let regs := { em.regs with a := (tmp >>> 1) ||| (if carry then 0x80 else 0) }
    let regs := regs.clear_flags
    let regs := regs.set_flag flagC carry
    pure ({ em with regs := regs }, 1, 1)
  else if instr = 0x10 then
    -- STOP
    Except.error (RtError.vmExit VmExit.Stop)
  else if instr = 0x11 then do
    -- LD DE, d16
    let w ← em.memory.read_word ((em.regs.pc + 1) % 65536)
    pure ({ em with regs := em.regs.set_de w }, 3, 3)
  else if instr = 0x12 then do
    -- LD (DE), A
    let m ← em.memory.write_byte em.regs.de em.regs.a
    pure ({ em with memory := m }, 1, 2)
  else if instr = 0x13 then
    -- INC DE
    pure ({ em with regs := em.regs.set_de ((em.regs.de + 1) % 65536) }, 1, 2)
  else if instr = 0x14 then
    -- INC D
    let (em', res) := em.alu_inc8 em.regs.d
    pure ({ em' with regs := { em'.regs with d := res } }, 1, 1)
  else if instr = 0x15 then
    -- DEC D
    let (em', res) := em.alu_dec8 em.regs.d
    pure ({ em' with regs := { em'.regs with d := res } }, 1, 1)
  else if instr = 0x16 then do
    -- LD D, d8
    let v ← em.memory.read_byte ((em.regs.pc + 1) % 65536)
    pure ({ em with regs := { em.regs with d := v } }, 2, 2)
  else if instr = 0x17 then
    -- RLA
    let em := em.alu_rl 7
    pure ({ em with regs := em.regs.set_flag flagZ false }, 1, 1)
  else if instr = 0x18 then do
    -- JR r8
    let tmp ← em.memory.read_byte ((em.regs.pc + 1) % 65536)
    pure ({ em with regs :=
      { em.regs with pc := (em.regs.pc + sign_ext8 tmp) % 65536 } }, 2, 3)
  else if instr = 0x19 then
    -- ADD HL, DE
    pure (em.alu_add_hl em.regs.de, 1, 2)
  else if instr = 0x1A then do
    -- LD A, (DE)
    let v ← em.memory.read_byte em.regs.de
    pure ({ em with regs := { em.regs with a := v } }, 1, 2)
  else if instr = 0x1B then
    -- DEC DE
    pure ({ em with regs := em.regs.set_de ((em.regs.de + 65535) % 65536) }, 1, 2)
  else if instr = 0x1C then
    -- INC E
    let (em', res) := em.alu_inc8 em.regs.e
    pure ({ em' with regs := { em'.regs with e := res } }, 1, 1)
  else if instr = 0x1D then
    -- DEC E
    let (em', res) := em.alu_dec8 em.regs.e
    pure ({ em' with regs := { em'.regs with e := res } }, 1, 1)
  else if instr = 0x1E then do
    -- LD E, d8
    let v ← em.memory.read_byte ((em.regs.pc + 1) % 65536)
    pure ({ em with regs := { em.regs with e := v } }, 2, 2)
  else if instr = 0x1F then
    -- RRA (the source shifts right without injecting the old carry)
    let tmp := em.regs.a
    let carry := tmp &&& 0x01 = 0x01
    let regs := { em.regs with a := tmp >>> 1 }
    let regs := regs.clear_flags
    let regs := regs.set_flag flagC carry
    pure ({ em with regs := regs }, 1, 1)
  else if instr = 0x20 then
    -- JR NZ, r8
    if em.regs.flag flagZ then pure (em, 2, 2)
    else do
      let tmp ← em.memory.read_byte ((em.regs.pc + 1) % 65536)
      pure ({ em with regs :=
        { em.regs with pc := (em.regs.pc + sign_ext8 tmp) % 65536 } }, 2, 3)
  else if instr = 0x21 then do
    -- LD HL, d16
    let w ← em.memory.read_word ((em.regs.pc + 1) % 65536)
    pure ({ em with regs := em.regs.set_hl w }, 3, 3)
  else if instr = 0x22 then do
    -- LD (HL+), A
    let m ← em.memory.write_byte em.regs.hl em.regs.a
    let em := { em with memory := m }
    pure ({ em with regs := em.regs.set_hl ((em.regs.hl + 1) % 65536) }, 1, 2)
  else if instr = 0x23 then
    -- INC HL
    pure ({ em with regs := em.regs.set_hl ((em.regs.hl + 1) % 65536) }, 1, 2)
  else if instr = 0x24 then
    -- INC H
    let (em', res) := em.alu_inc8 em.regs.h
    pure ({ em' with regs := { em'.regs with h := res } }, 1, 1)
  else if instr = 0x25 then
    -- DEC H
    let (em', res) := em.alu_dec8 em.regs.h
    pure ({ em' with regs := { em'.regs with h := res } }, 1, 1)
  else if instr = 0x26 then do
    -- LD H, d8
    let v ← em.memory.read_byte ((em.regs.pc + 1) % 65536)
    pure ({ em with regs := { em.regs with h := v } }, 2, 2)
  else if instr = 0x27 then
    -- DAA is unimplemented: the arm aborts
    Except.error RtError.rtPanic
  else if instr = 0x28 then
    -- JR Z, r8
    if !em.regs.flag flagZ then pure (em, 2, 2)
    else do
      let tmp ← em.memory.read_byte ((em.regs.pc + 1) % 65536)
      pure ({ em with regs :=
        { em.regs with pc := (em.regs.pc + sign_ext8 tmp) % 65536 } }, 2, 3)
  else if instr = 0x29 then
    -- ADD HL, HL
    pure (em.alu_add_hl em.regs.hl, 1, 2)
  else if instr = 0x2A then do
    -- LD A, (HL+)
    let v ← em.memory.read_byte em.regs.hl
    let em := { em with regs := { em.regs with a := v } }
    pure ({ em with regs := em.regs.set_hl ((em.regs.hl + 1) % 65536) }, 1, 2)
  else if instr = 0x2B then
    -- DEC HL
    pure ({ em with regs := em.regs.set_hl ((em.regs.hl + 65535) % 65536) }, 1, 2)
  else if instr = 0x2C then
    -- INC L
    let (em', res) := em.alu_inc8 em.regs.l
    pure ({ em' with regs := { em'.regs with l := res } }, 1, 1)
  else if instr = 0x2D then
    -- DEC L
    let (em', res) := em.alu_dec8 em.regs.l
    pure ({ em' with regs := { em'.regs with l := res } }, 1, 1)
  else if instr = 0x2E then do
    -- LD L, d8
    let v ← em.memory.read_byte ((em.regs.pc + 1) % 65536)
    pure ({ em with regs := { em.regs with l := v } }, 2, 2)
  else if instr = 0x2F then
    -- CPL (`!a` is the u8 complement)
    let regs := { em.regs with a := em.regs.a ^^^ 0xFF }
    let regs := regs.set_flag flagN true
    let regs := regs.set_flag flagH true
    pure ({ em with regs := regs }, 1, 1)
  else if instr = 0x30 then
    -- JR NC, r8
    if em.regs.flag flagC then pure (em, 2, 2)
    else do
      let tmp ← em.memory.read_byte ((em.regs.pc + 1) % 65536)
      pure ({ em with regs :=
        { em.regs with pc := (em.regs.pc + sign_ext8 tmp) % 65536 } }, 2, 3)
  else if instr = 0x31 then do
    -- LD SP, d16
    let w ← em.memory.read_word ((em.regs.pc + 1) % 65536)
    pure ({ em with regs := { em.regs with sp := w } }, 3, 3)
  else if instr = 0x32 then do
    -- LD (HL-), A
    let m ← em.memory.write_byte em.regs.hl em.regs.a
    let em := { em with memory := m }
    pure ({ em with regs := em.regs.set_hl ((em.regs.hl + 65535) % 65536) }, 1, 2)
  else if instr = 0x33 then
    -- INC SP
    pure ({ em with regs := { em.regs with sp := (em.regs.sp + 1) % 65536 } }, 1, 2)
  else if instr = 0x34 then do
    -- INC (HL)
    let tmp ← em.memory.read_byte em.regs.hl
    let (em', res) := em.alu_inc8 tmp
    let m ← em'.memory.write_byte em'.regs.hl res
    pure ({ em' with memory := m }, 1, 3)
  else if instr = 0x35 then do
    -- DEC (HL)
    let tmp ← em.memory.read_byte em.regs.hl
    let (em', res) := em.alu_dec8 tmp
    let m ← em'.memory.write_byte em'.regs.hl res
    pure ({ em' with memory := m }, 1, 3)
  else if instr = 0x36 then do
    -- LD (HL), d8
    let tmp ← em.memory.read_byte ((em.regs.pc + 1) % 65536)
    let m ← em.memory.write_byte em.regs.hl tmp
    pure ({ em with memory := m }, 2, 3)
  else if instr = 0x37 then
    -- SCF
    let regs := em.regs.set_flag flagN false
    let regs := regs.set_flag flagH false
    let regs := regs.set_flag flagC true
    pure ({ em with regs := regs }, 1, 1)
  else if instr = 0x38 then
    -- JR C, r8
    if !em.regs.flag flagC then pure (em, 2, 2)
    else do
      let tmp ← em.memory.read_byte ((em.regs.pc + 1) % 65536)
      pure ({ em with regs :=
        { em.regs with pc := (em.regs.pc + sign_ext8 tmp) % 65536 } }, 2, 3)
  else if instr = 0x39 then
    -- ADD HL, SP
    pure (em.alu_add_hl em.regs.sp, 1, 2)
  else if instr = 0x3A then do
    -- LD A, (HL-)
    let v ← em.memory.read_byte em.regs.hl
    let em := { em with regs := { em.regs with a := v } }
    pure ({ em with regs := em.regs.set_hl ((em.regs.hl + 65535) % 65536) }, 1, 2)
  else if instr = 0x3B then
    -- DEC SP
    pure ({ em with regs := { em.regs with sp := (em.regs.sp + 65535) % 65536 } }, 1, 2)
  else if instr = 0x3C then
    -- INC A
    let (em', res) := em.alu_inc8 em.regs.a
    pure ({ em' with regs := { em'.regs with a := res } }, 1, 1)
  else if instr = 0x3D then
    -- DEC A
    let (em', res) := em.alu_dec8 em.regs.a
    pure ({ em' with regs := { em'.regs with a := res } }, 1, 1)
  else if instr = 0x3E then do
    -- LD A, d8
    let v ← em.memory.read_byte ((em.regs.pc + 1) % 65536)
    pure ({ em with regs := { em.regs with a := v } }, 2, 2)
  else if instr = 0x3F then
    -- CCF
    let regs := em.regs.set_flag flagN false
    let regs := regs.set_flag flagH false
    let regs := regs.set_flag flagC (!em.regs.flag flagC)
    pure ({ em with regs := regs }, 1, 1)
  else if (0x40 ≤ instr ∧ instr ≤ 0x6F) ∨ (0x78 ≤ instr ∧ instr ≤ 0x7F) then do
    -- LD r8, r8 — source selected by the low 3 bits, destination by the
    -- masked high bits; the `unreachable!` default arms are dead because
    -- the masks confine both selectors, and are absorbed by the last case.
    let src ← (match instr &&& 0x7 with
      | 0x0 => pure em.regs.b
      | 0x1 => pure em.regs.c
      | 0x2 => pure em.regs.d
      | 0x3 => pure em.regs.e
      | 0x4 => pure em.regs.h
      | 0x5 => pure em.regs.l
      | 0x6 => em.memory.read_byte em.regs.hl
      | _ => pure em.regs.a)
    let em := (match instr &&& 0b11111000 with
      | 0x40 => { em with regs := { em.regs with b := src } }
      | 0x48 => { em with regs := { em.regs with c := src } }
      | 0x50 => { em with regs := { em.regs with d := src } }
      | 0x58 => { em with regs := { em.regs with e := src } }
      | 0x60 => { em with regs := { em.regs with h := src } }
      | 0x68 => { em with regs := { em.regs with l := src } }
      | _ => { em with regs := { em.regs with a := src } })
    pure (em, 1, if instr &&& 0x7 = 0x6 then 2 else 1)
  else if 0x70 ≤ instr ∧ instr ≤ 0x77 then do
    -- LD (HL), r8 — selector 6 is the HALT encoding and exits
    let src ← (match instr &&& 0x7 with
      | 0x0 => pure em.regs.b
      | 0x1 => pure em.regs.c
      | 0x2 => pure em.regs.d
      | 0x3 => pure em.regs.e
      | 0x4 => pure em.regs.h
      | 0x5 => pure em.regs.l
      | 0x6 => Except.error (RtError.vmExit VmExit.Halt)
      | _ => pure em.regs.a)
    let m ← em.memory.write_byte em.regs.hl src
    pure ({ em with memory := m }, 1, 2)
  else if 0x80 ≤ instr ∧ instr ≤ 0xBF then do
    -- ALU group, operation selected by the masked high bits
    let src ← (match instr &&& 0x7 with
      | 0x0 => pure em.regs.b
      | 0x1 => pure em.regs.c
      | 0x2 => pure em.regs.d
      | 0x3 => pure em.regs.e
      | 0x4 => pure em.regs.h
      | 0x5 => pure em.regs.l
      | 0x6 => em.memory.read_byte em.regs.hl
      | _ => pure em.regs.a)
    let em := (match instr &&& 0b11111000 with
      | 0x80 => em.alu_add src
      | 0x88 => em.alu_adc src
      | 0x90 => em.alu_sub src
      | 0x98 => em.alu_sbc src
      | 0xA0 => em.alu_and src
      | 0xA8 => em.alu_xor src
      | 0xB0 => em.alu_or src
      | _ => em.alu_cp src)
    pure (em, 1, if instr &&& 0x7 = 0x6 then 2 else 1)
  else
    em.exec_instr_hi instr

/-- One iteration of the `Emulator::run` loop: fetch the opcode at PC,
decode/execute it, advance PC by the reported byte count (u16 wrap), then
feed the PPU `machine_cycles * 4` clock ticks. -/
def Emulator.run_step (em : Emulator) : Except RtError Emulator := do
  let instr ← em.memory.read_byte em.regs.pc
  let (em, bytes_read, machine_cycles) ← em.exec_instr instr
  let em := { em with regs :=
    { em.regs with pc := (em.regs.pc + bytes_read) % 65536 } }
  pure { em with memory :=
    { em.memory with gpu := em.memory.gpu.step (machine_cycles * 4) } }

/-! Concrete machine configurations used by the theorems below.  A boot
image is the byte sequence the CPU starts executing at PC = 0 (the boot
overlay is locked in at power-on), so a short program placed there is
reachable by the run loop from the power-on state. -/

/-- An all-zero boot image. -/
def bootrom_zero : Nat → Nat := fun _ => 0

/-- Boot image `LD SP,0xD000 ; CALL 0x1234`. -/
def bootrom_call : Nat → Nat := fun n =>
  if n = 0 then 0x31 else if n = 1 then 0x00 else if n = 2 then 0xD0
  else if n = 3 then 0xCD else if n = 4 then 0x34 else if n = 5 then 0x12
  else 0

/-- Boot image `JR +5`. -/
def bootrom_jr : Nat → Nat := fun n =>
  if n = 0 then 0x18 else if n = 1 then 0x05 else 0

/-- Boot image `LD SP,0xC000 ; LD A,0x11 ; LD (0xC000),A ; POP AF`. -/
def bootrom_pop_af : Nat → Nat := fun n =>
  if n = 0 then 0x31 else if n = 1 then 0x00 else if n = 2 then 0xC0
  else if n = 3 then 0x3E else if n = 4 then 0x11
  else if n = 5 then 0xEA else if n = 6 then 0x00 else if n = 7 then 0xC0
  else if n = 8 then 0xF1 else 0

/-- A power-on emulator whose register file has the given F and SP values
(every other register zero), over an all-zero memory. -/
def emu_with_f_sp (f sp : Nat) : Emulator :=
  { memory := Mmu.new bootrom_zero,
    regs := { a := 0, b := 0, c := 0, d := 0, e := 0, f := f, h := 0, l := 0,
              sp := sp, pc := 0 } }

/-! Helper lemmas shared by the claim theorems. -/

theorem upd_same (f : Nat → Nat) (i v : Nat) : upd f i v i = v := by
  simp [upd]

theorem upd_other (f : Nat → Nat) (i j v : Nat) (h : j ≠ i) :
    upd f i v j = f j := by
  simp [upd, h]

/-- Reading a flag is reading one bit of F. -/
theorem flag_eq_testBit (r : Registers) (k : Nat) :
    r.flag (2 ^ k) = r.f.testBit k := by
  unfold Registers.flag
  rw [Nat.and_two_pow]
  cases h : r.f.testBit k
  · simp [h]
  · simp [h, Nat.one_mul, (Nat.two_pow_pos k).ne']

/-- Recomposing a low byte with a shifted high part. -/
theorem lor_high_byte (a b : Nat) (ha : a < 256) :
    a ||| (b <<< 8) = 2 ^ 8 * b + a := by
  apply Nat.eq_of_testBit_eq
  intro j
  rw [Nat.testBit_mul_pow_two_add b (show a < 2 ^ 8 by omega) j]
  simp only [Nat.testBit_or, Nat.testBit_shiftLeft]
  by_cases hj : j < 8
  · simp [hj, show ¬(j ≥ 8) by omega]
  · have ha' : a.testBit j = false := by
      apply Nat.testBit_lt_two_pow
      calc a < 2 ^ 8 := by omega
        _ ≤ 2 ^ j := Nat.pow_le_pow_right (by omega) (by omega)
    simp [hj, ha', show j ≥ 8 by omega]

/-- A byte write into working RAM (`0xC000..=0xDFFF`) updates `ram`. -/
theorem write_byte_ram (m : Mmu) (address val : Nat)
    (h1 : 0xC000 ≤ address) (h2 : address ≤ 0xDFFF) :
    m.write_byte address val =
      Except.ok { m with ram := upd m.ram (address - 0xC000) val } := by
  unfold Mmu.write_byte
  rw [if_neg (by omega), if_neg (by omega), if_pos (by omega)]

/-- A byte read from working RAM (`0xC000..=0xDFFF`) comes from `ram`. -/
theorem read_byte_ram (m : Mmu) (address : Nat)
    (h1 : 0xC000 ≤ address) (h2 : address ≤ 0xDFFF) :
    m.read_byte address = Except.ok (m.ram (address - 0xC000)) := by
  unfold Mmu.read_byte
  rw [if_neg (by omega), if_neg (by omega), if_neg (by omega), if_pos (by omega)]

/-- A word write wholly inside working RAM stores its two bytes
little-endian. -/
theorem write_word_ram (m : Mmu) (address val : Nat)
    (h1 : 0xC000 ≤ address) (h2 : address + 1 ≤ 0xDFFF) :
    m.write_word address val =
      Except.ok { m with ram := (upd (upd m.ram (address - 0xC000) (val &&& 0xFF))
        (address + 1 - 0xC000) ((val >>> 8) % 256)) } := by
  unfold Mmu.write_word
  rw [write_byte_ram _ _ _ (by omega) (by omega)]
  simp only [bind, Except.bind]
  rw [show (address + 1) % 65536 = address + 1 by omega]
  rw [write_byte_ram _ _ _ (by omega) (by omega)]
  simp only [bind, Except.bind, pure, Except.pure]

/-- A word read wholly inside working RAM recombines its two bytes
little-endian. -/
theorem read_word_ram (m : Mmu) (address : Nat)
    (h1 : 0xC000 ≤ address) (h2 : address + 1 ≤ 0xDFFF) :
    m.read_word address =
      Except.ok ((m.ram (address - 0xC000)) |||
        ((m.ram (address + 1 - 0xC000)) <<< 8)) := by
  unfold Mmu.read_word
  rw [read_byte_ram _ _ (by omega) (by omega)]
  simp only [bind, Except.bind]
  rw [show (address + 1) % 65536 = address + 1 by omega]
  rw [read_byte_ram _ _ (by omega) (by omega)]
  simp only [bind, Except.bind, pure, Except.pure]

/-- Z after `alu_inc8` tracks the result exactly. -/
theorem alu_inc8_Z (em : Emulator) (v : Nat) :
    ((em.alu_inc8 v).1.regs.flag flagZ) = decide ((v + 1) % 256 = 0) := by
  have h128 : flagZ = 2 ^ 7 := by norm_num [flagZ]
  rw [h128, flag_eq_testBit]
  unfold Emulator.alu_inc8 Registers.set_flag
  norm_num
  split <;> split <;>
    simp_all [Nat.testBit_or, Nat.testBit_and, Nat.testBit_xor,
      flagN, flagZ, flagH, flagC,
      show Nat.testBit 255 7 = true from by decide,
      show Nat.testBit 191 7 = true from by decide,
      show Nat.testBit 128 7 = true from by decide,
      show Nat.testBit 127 7 = false from by decide,
      show Nat.testBit 64 7 = false from by decide,
      show Nat.testBit 32 7 = false from by decide,
      show Nat.testBit 16 7 = false from by decide]

/-- N is cleared by `alu_inc8`. -/
theorem alu_inc8_N (em : Emulator) (v : Nat) :
    ((em.alu_inc8 v).1.regs.flag flagN) = false := by
  have h64 : flagN = 2 ^ 6 := by norm_num [flagN]
  rw [h64, flag_eq_testBit]
  unfold Emulator.alu_inc8 Registers.set_flag
  norm_num
  split <;> split <;>
    simp_all [Nat.testBit_or, Nat.testBit_and, Nat.testBit_xor,
      flagN, flagZ, flagH, flagC,
      show Nat.testBit 255 6 = true from by decide,
      show Nat.testBit 191 6 = false from by decide,
      show Nat.testBit 128 6 = false from by decide,
      show Nat.testBit 127 6 = true from by decide,
      show Nat.testBit 64 6 = true from by decide,
      show Nat.testBit 32 6 = false from by decide,
      show Nat.testBit 16 6 = false from by decide]

/-- H after `alu_inc8` is sticky: set on the boundary pattern, otherwise
left at its previous value. -/
theorem alu_inc8_H (em : Emulator) (v : Nat) :
    ((em.alu_inc8 v).1.regs.flag flagH) =
      (em.regs.flag flagH || decide ((v + 1) % 256 &&& 0b11111 = 0b10000)) := by
  have h32 : flagH = 2 ^ 5 := by norm_num [flagH]
  rw [h32, flag_eq_testBit, flag_eq_testBit]
  unfold Emulator.alu_inc8 Registers.set_flag
  norm_num
  split <;> split <;>
    simp_all [Nat.testBit_or, Nat.testBit_and, Nat.testBit_xor,
      flagN, flagZ, flagH, flagC,
      show Nat.testBit 255 5 = true from by decide,
      show Nat.testBit 191 5 = true from by decide,
      show Nat.testBit 128 5 = false from by decide,
      show Nat.testBit 127 5 = true from by decide,
      show Nat.testBit 64 5 = false from by decide,
      show Nat.testBit 32 5 = true from by decide,
      show Nat.testBit 16 5 = false from by decide]

/-- Z after `alu_dec8` tracks the result exactly. -/
theorem alu_dec8_Z (em : Emulator) (v : Nat) :
    ((em.alu_dec8 v).1.regs.flag flagZ) = decide ((v + 255) % 256 = 0) := by
  have h128 : flagZ = 2 ^ 7 := by norm_num [flagZ]
  rw [h128, flag_eq_testBit]
  unfold Emulator.alu_dec8 Registers.set_flag
  norm_num
  split <;> split <;>
    simp_all [Nat.testBit_or, Nat.testBit_and, Nat.testBit_xor,
      flagN, flagZ, flagH, flagC,
      show Nat.testBit 255 7 = true from by decide,
      show Nat.testBit 191 7 = true from by decide,
      show Nat.testBit 128 7 = true from by decide,
      show Nat.testBit 127 7 = false from by decide,
      show Nat.testBit 64 7 = false from by decide,
      show Nat.testBit 32 7 = false from by decide,
      show Nat.testBit 16 7 = false from by decide]

/-- N is set by `alu_dec8`. -/
theorem alu_dec8_N (em : Emulator) (v : Nat) :
    ((em.alu_dec8 v).1.regs.flag flagN) = true := by
  have h64 : flagN = 2 ^ 6 := by norm_num [flagN]
  rw [h64, flag_eq_testBit]
  unfold Emulator.alu_dec8 Registers.set_flag
  norm_num
  split <;> split <;>
    simp_all [Nat.testBit_or, Nat.testBit_and, Nat.testBit_xor,
      flagN, flagZ, flagH, flagC,
      show Nat.testBit 255 6 = true from by decide,
      show Nat.testBit 191 6 = false from by decide,
      show Nat.testBit 128 6 = false from by decide,
      show Nat.testBit 127 6 = true from by decide,
      show Nat.testBit 64 6 = true from by decide,
      show Nat.testBit 32 6 = false from by decide,
      show Nat.testBit 16 6 = false from by decide]

/-- H after `alu_dec8` is sticky: set on the boundary pattern, otherwise
left at its previous value. -/
theorem alu_dec8_H (em : Emulator) (v : Nat) :
    ((em.alu_dec8 v).1.regs.flag flagH) =
      (em.regs.flag flagH || decide ((v + 255) % 256 &&& 0b11111 = 0b01111)) := by
  have h32 : flagH = 2 ^ 5 := by norm_num [flagH]
  rw [h32, flag_eq_testBit, flag_eq_testBit]
  unfold Emulator.alu_dec8 Registers.set_flag
  norm_num
  split <;> split <;>
    simp_all [Nat.testBit_or, Nat.testBit_and, Nat.testBit_xor,
      flagN, flagZ, flagH, flagC,
      show Nat.testBit 255 5 = true from by decide,
      show Nat.testBit 191 5 = true from by decide,
      show Nat.testBit 128 5 = false from by decide,
      show Nat.testBit 127 5 = true from by decide,
      show Nat.testBit 64 5 = false from by decide,
      show Nat.testBit 32 5 = true from by decide,
      show Nat.testBit 16 5 = false from by decide]

/-- C1: a byte read at an address no backing store answers (0xFEA0, inside
the `0xFEA0..=0xFEFF` gap left by the `read_byte` match) takes the `panic!`
arm and aborts the process; it does not produce the typed
`VmExit::OobRead` exit reason, which no code path ever constructs. -/
theorem c1_unmapped_read_panics_not_oob :
    (Mmu.new bootrom_zero).read_byte 0xFEA0 = Except.error RtError.rtPanic ∧
    (Except.error RtError.rtPanic : Except RtError Nat) ≠
      Except.error (RtError.vmExit VmExit.OobRead) := by
  exact ⟨rfl, by simp⟩

/-- C2: executing XOR (here `alu_xor` on the power-on state, operand 0, as
reached by opcodes 0xA8–0xAD, 0xAF and 0xEE) leaves the Half-carry flag
*set*, though the claim (and the spec's ALU table) requires XOR to clear
Half-carry.  The resulting F is 0xA0 = Z|H rather than 0x80 = Z. -/
theorem c2_xor_sets_half_carry :
    ((Emulator.new bootrom_zero).alu_xor 0).regs.flag flagH = true ∧
    ((Emulator.new bootrom_zero).alu_xor 0).regs.f = 0xA0 := by
  exact ⟨rfl, rfl⟩

/-- C6: a freshly constructed PPU fed exactly 80+172+204 = 456 cycle-ticks
through `step` advances the scanline index from 0 to 1 and leaves the mode
at OAM scan. -/
theorem c6_ppu_456_ticks :
    Gpu.new.line = 0 ∧
    (Gpu.new.step 456).line = 1 ∧
    (Gpu.new.step 456).mode = GpuMode.OAMAccess := by
  exact ⟨rfl, rfl, rfl⟩

/-- C10: every write into `0x0000..=0x3FFF` is accepted (`Ok(())`) and
leaves the whole machine state unchanged. -/
theorem c10_rom_write_noop (m : Mmu) (address val : Nat)
    (h : address ≤ 0x3FFF) :
    m.write_byte address val = Except.ok m := by
  unfold Mmu.write_byte
  rw [if_pos h]

/-- Witness for `c10_rom_write_noop` at address 0, value 5. -/
theorem c10_rom_write_noop_witness :
    (Mmu.new bootrom_zero).write_byte 0 5 = Except.ok (Mmu.new bootrom_zero) :=
  c10_rom_write_noop (Mmu.new bootrom_zero) 0 5 (by omega)

/-- C3: running `LD SP,0xD000 ; CALL 0x1234` from power-on executes the
CALL at p = 3; the word pushed at the new stack top 0xCFFE is p + 2 = 5,
not p + 3 = 6 (the 3-byte instruction's encoded length), while PC does
become the call target 0x1234. -/
theorem c3_call_pushes_pc_plus_two :
    (((Emulator.new bootrom_call).run_step >>= Emulator.run_step).bind
        (fun em => em.memory.read_word 0xCFFE)) = Except.ok 5 ∧
    (((Emulator.new bootrom_call).run_step >>= Emulator.run_step).map
        (fun em => em.regs.pc)) = Except.ok 0x1234 ∧
    (5 : Nat) ≠ 3 + 3 := by
  exact ⟨rfl, rfl, by omega⟩

/-- C5: the power-on run loop can reach a register file whose F has a
non-zero low nibble: `LD SP,0xC000 ; LD A,0x11 ; LD (0xC000),A ; POP AF`
leaves F = 0x11, because `set_af` copies all eight popped bits into F
instead of masking the low four. -/
theorem c5_pop_af_low_nibble_nonzero :
    (((Emulator.new bootrom_pop_af).run_step >>= Emulator.run_step >>=
        Emulator.run_step >>= Emulator.run_step).map
        (fun em => em.regs.f % 16)) = Except.ok 1 := by
  exact rfl

/-- C4 counterexample: the taken (unconditional) `JR +5` at p = 0 reports
2 bytes consumed, not 0; the decode arm writes PC = 5 (p plus the raw
offset) and the byte advance then lands PC at 7, so the final PC is not
the value the arm explicitly wrote. -/
theorem c4_taken_jr_reports_two_bytes :
    ((Emulator.new bootrom_jr).exec_instr 0x18).map (fun r => r.2.1) =
      Except.ok 2 ∧
    ((Emulator.new bootrom_jr).exec_instr 0x18).map (fun r => r.1.regs.pc) =
      Except.ok 5 ∧
    ((Emulator.new bootrom_jr).run_step).map (fun em => em.regs.pc) =
      Except.ok 7 ∧
    (2 : Nat) ≠ 0 := by
  exact ⟨rfl, rfl, rfl, by omega⟩

/-- C4 (amended): of the branching arms, only calls taken (0xCD shown) and
returns (0xC9 shown) report 0 bytes-consumed; a taken relative jump 0x18
reports 2 (its explicit PC write is the target minus that advance), a taken
absolute jump 0xC3 reports 3 and a restart 0xFF reports 1, so for the
latter two the final PC is the explicitly written target plus the reported
byte count. -/
theorem c4_branch_bytes_as_implemented (em em' : Emulator) (b c : Nat) :
    (em.exec_instr 0xCD = Except.ok (em', b, c) → b = 0) ∧
    (em.exec_instr 0xC9 = Except.ok (em', b, c) → b = 0) ∧
    (em.exec_instr 0x18 = Except.ok (em', b, c) → b = 2) ∧
    (em.exec_instr 0xC3 = Except.ok (em', b, c) → b = 3) ∧
    (em.exec_instr 0xFF = Except.ok (em', b, c) → b = 1) := by
  refine ⟨?_, ?_, ?_, ?_, ?_⟩ <;> intro h <;>
    simp only [Emulator.exec_instr, Emulator.exec_instr_hi] at h <;>
    norm_num at h
  · rcases hp : em.push16 ((em.regs.pc + 2) % 65536) with e | em1
    · rw [hp] at h
      try simp only [bind, Except.bind, Functor.map, Except.map] at h
      exact Except.noConfusion h
    · rw [hp] at h
      try simp only [bind, Except.bind, Functor.map, Except.map] at h
      rcases hw : em1.memory.read_word ((em1.regs.pc + 1) % 65536) with e | w
      · rw [hw] at h
        try simp only [bind, Except.bind, Functor.map, Except.map] at h
        exact Except.noConfusion h
      · rw [hw] at h
        try simp only [bind, Except.bind, Functor.map, Except.map, pure,
          Except.pure] at h
        simp only [Except.ok.injEq, Prod.mk.injEq] at h
        exact h.2.1.symm
  · rcases hp : em.pop16 with e | p
    · rw [hp] at h
      try simp only [bind, Except.bind, Functor.map, Except.map] at h
      exact Except.noConfusion h
    · rw [hp] at h
      try simp only [bind, Except.bind, Functor.map, Except.map, pure,
        Except.pure] at h
      simp only [Except.ok.injEq, Prod.mk.injEq] at h
      exact h.2.1.symm
  · rcases hr : em.memory.read_byte ((em.regs.pc + 1) % 65536) with e | v
    · rw [hr] at h
      try simp only [bind, Except.bind, Functor.map, Except.map] at h
      exact Except.noConfusion h
    · rw [hr] at h
      try simp only [bind, Except.bind, Functor.map, Except.map, pure,
        Except.pure] at h
      simp only [Except.ok.injEq, Prod.mk.injEq] at h
      exact h.2.1.symm
  · rcases hr : em.memory.read_word ((em.regs.pc + 1) % 65536) with e | v
    · rw [hr] at h
      try simp only [bind, Except.bind, Functor.map, Except.map] at h
      exact Except.noConfusion h
    · rw [hr] at h
      try simp only [bind, Except.bind, Functor.map, Except.map, pure,
        Except.pure] at h
      simp only [Except.ok.injEq, Prod.mk.injEq] at h
      exact h.2.1.symm
  · simp only [pure, Except.pure, Except.ok.injEq, Prod.mk.injEq] at h
    exact h.2.1.symm

/-- Witness for `c4_branch_bytes_as_implemented`: the RST 38h conjunct at
the power-on emulator, whose decode arm yields exactly 1 byte consumed. -/
theorem c4_branch_bytes_as_implemented_witness :
    (Emulator.new bootrom_zero).exec_instr 0xFF =
      Except.ok ({ Emulator.new bootrom_zero with regs :=
        { (Emulator.new bootrom_zero).regs with pc := 0x38 } }, 1, 4) ∧
    (1 : Nat) = 1 :=
  ⟨rfl, (c4_branch_bytes_as_implemented (Emulator.new bootrom_zero)
    { Emulator.new bootrom_zero with regs :=
      { (Emulator.new bootrom_zero).regs with pc := 0x38 } } 1 4).2.2.2.2 rfl⟩

/-- C7: while the boot lock is held, address 0x50 reads the boot image
byte; a write to 0xFF50 with bit 0 set drops the lock (and nothing else);
afterwards address 0x50 reads the cartridge ROM byte, and every further
write to 0xFF50 — the same value again or any other — leaves the state
unchanged: the lock is idempotent and irreversible. -/
theorem c7_boot_lock (m : Mmu) (v v' : Nat)
    (hlock : m.bootrom_lock = true) (hv : v &&& 0x01 = 0x01) :
    m.read_byte 0x50 = Except.ok (m.bootrom 0x50) ∧
    m.write_byte 0xFF50 v = Except.ok { m with bootrom_lock := false } ∧
    Mmu.read_byte { m with bootrom_lock := false } 0x50 =
      Except.ok (m.rom 0x50) ∧
    Mmu.write_byte { m with bootrom_lock := false } 0xFF50 v' =
      Except.ok { m with bootrom_lock := false } := by
  have hv2 : v % 2 = 1 := by rwa [Nat.and_one_is_mod] at hv
  have hr : m.read_byte 0xFF50 = Except.ok 0 := by
    unfold Mmu.read_byte Mmu.handle_io_read
    norm_num [hlock]
  refine ⟨?_, ?_, ?_, ?_⟩
  · unfold Mmu.read_byte
    rw [if_pos (by omega), if_pos ⟨hlock, by omega⟩]
  · unfold Mmu.write_byte Mmu.handle_io_write
    norm_num
    rw [if_pos hv2, hr]
    simp only [bind, Except.bind]
    norm_num
  · unfold Mmu.read_byte
    norm_num
  · unfold Mmu.write_byte Mmu.handle_io_write
    norm_num
    intro hv'
    rfl

/-- Witness for `c7_boot_lock`: the power-on memory with both writes
carrying value 1. -/
theorem c7_boot_lock_witness :
    (Mmu.new bootrom_zero).bootrom_lock = true ∧
    (1 : Nat) &&& 0x01 = 0x01 ∧
    (Mmu.new bootrom_zero).write_byte 0xFF50 1 =
      Except.ok { Mmu.new bootrom_zero with bootrom_lock := false } :=
  ⟨rfl, rfl, (c7_boot_lock (Mmu.new bootrom_zero) 1 1 rfl rfl).2.1⟩

/-- C8 counterexample: with the Half-carry flag already set (F = 0x20),
`alu_inc8 0` yields result 1, whose low five bits are not the boundary
pattern 0b10000, yet Half-carry remains set afterwards — the flag is not an
iff of the result pattern. -/
theorem c8_inc8_half_carry_not_iff :
    ((emu_with_f_sp 0x20 0).alu_inc8 0).1.regs.flag flagH = true ∧
    ((emu_with_f_sp 0x20 0).alu_inc8 0).2 &&& 0b11111 ≠ 0b10000 := by
  exact ⟨rfl, by decide⟩

/-- C8 (amended): for every prior flag state and operand, `alu_inc8` /
`alu_dec8` compute the wrapping result, set Zero iff the result is 0,
clear (resp. set) Subtract, and *set* Half-carry when the result's low
five bits equal 0b10000 (resp. 0b01111) while otherwise leaving the
previous Half-carry value in place. -/
theorem c8_inc8_dec8_flags_as_implemented (em : Emulator) (v : Nat) :
    (em.alu_inc8 v).2 = (v + 1) % 256 ∧
    ((em.alu_inc8 v).1.regs.flag flagZ) = decide ((v + 1) % 256 = 0) ∧
    ((em.alu_inc8 v).1.regs.flag flagN) = false ∧
    ((em.alu_inc8 v).1.regs.flag flagH) =
      (em.regs.flag flagH || decide ((v + 1) % 256 &&& 0b11111 = 0b10000)) ∧
    (em.alu_dec8 v).2 = (v + 255) % 256 ∧
    ((em.alu_dec8 v).1.regs.flag flagZ) = decide ((v + 255) % 256 = 0) ∧
    ((em.alu_dec8 v).1.regs.flag flagN) = true ∧
    ((em.alu_dec8 v).1.regs.flag flagH) =
      (em.regs.flag flagH || decide ((v + 255) % 256 &&& 0b11111 = 0b01111)) :=
  ⟨rfl, alu_inc8_Z em v, alu_inc8_N em v, alu_inc8_H em v,
   rfl, alu_dec8_Z em v, alu_dec8_N em v, alu_dec8_H em v⟩

/-- C9 counterexample: with SP = 0x1002 — far from the 16-bit address-space
boundaries — `push16 0x1234` lands in the silently-dropped ROM range, so the
immediately following `pop16` returns the ROM contents 0, not 0x1234. -/
theorem c9_push_pop_rom_range_fails :
    (((emu_with_f_sp 0 0x1002).push16 0x1234).bind Emulator.pop16).map
      Prod.fst = Except.ok 0 ∧
    (0 : Nat) ≠ 0x1234 := by
  exact ⟨rfl, by omega⟩

/-- C9 (amended): for every 16-bit value and every SP whose two pushed
bytes land in working RAM (0xC002 ≤ SP ≤ 0xE000), `push16 x` immediately
followed by `pop16` returns `x` and restores SP. -/
theorem c9_push_pop_roundtrip_ram (em : Emulator) (x : Nat)
    (hx : x < 65536) (h1 : 0xC002 ≤ em.regs.sp) (h2 : em.regs.sp ≤ 0xE000) :
    ((em.push16 x).bind Emulator.pop16).map Prod.fst = Except.ok x ∧
    ((em.push16 x).bind Emulator.pop16).map (fun p => p.2.regs.sp) =
      Except.ok em.regs.sp := by
  have hsp : (em.regs.sp + 65534) % 65536 = em.regs.sp - 2 := by omega
  unfold Emulator.push16
  simp only []
  rw [hsp]
  rw [write_word_ram _ _ _ (by omega) (by omega)]
  simp only [bind, Except.bind, pure, Except.pure]
  unfold Emulator.pop16
  simp only [bind, Except.bind]
  rw [read_word_ram _ _ (by omega) (by omega)]
  simp only [bind, Except.bind, pure, Except.pure, Except.map]
  rw [upd_other _ _ _ _ (by omega), upd_same, upd_same]
  have e1 : x &&& 0xFF = x % 256 := by
    have h := Nat.and_pow_two_sub_one_eq_mod x 8
    norm_num at h
    exact h
  have e2 : (x >>> 8) % 256 = x / 256 := by
    have h := Nat.shiftRight_eq_div_pow x 8
    norm_num at h
    rw [h]
    exact Nat.mod_eq_of_lt (by omega)
  rw [e1, e2, lor_high_byte _ _ (by omega)]
  constructor
  · simp only [Except.ok.injEq]
    omega
  · simp only [Except.ok.injEq]
    omega

/-- Witness for `c9_push_pop_roundtrip_ram`: SP = 0xD000, x = 0x1234. -/
theorem c9_push_pop_roundtrip_ram_witness :
    (((emu_with_f_sp 0 0xD000).push16 0x1234).bind Emulator.pop16).map
      Prod.fst = Except.ok 0x1234 ∧
    (((emu_with_f_sp 0 0xD000).push16 0x1234).bind Emulator.pop16).map
      (fun p => p.2.regs.sp) = Except.ok (emu_with_f_sp 0 0xD000).regs.sp :=
  c9_push_pop_roundtrip_ram (emu_with_f_sp 0 0xD000) 0x1234
    (by omega) (by decide) (by decide)

end GB
